import Mathlib

/-!
Verification of the SEN66 sensor-driver core: wire checksum, word codec,
deserialization checking, value-type validation, and the Idle/Measuring
session state machine of the driver façade.

Machine integers are modelled as `Nat` (unsigned) and `Int` (signed) with
explicit wrap-arounds (`% 256`, two's complement reinterpretation) where the
source relies on fixed-width behaviour.  Fallible Rust functions returning
`Result` are modelled as `Except`; a Rust panic (index out of bounds,
arithmetic overflow under checked arithmetic) is modelled as `Option.none`
around the `Except`.
-/

namespace Sen66

/-- Session state of the driver (`SensorState` in `data/state.rs`). -/
inductive SensorState
  | Idle
  | Measuring
deriving DecidableEq, Repr

/-- Data-handling errors (`DataError` in `error.rs`).  String payloads keep the
parameter/expected/unit strings of the source; numeric payloads use `Int` for
the `i32` bounds and `Nat` for the received `u16`. -/
inductive DataError
  | CrcFailed
  | NotASCIIString
  | ReceivedBufferWrongSize
  | UnexpectedValueReceived (parameter : String) (expected : String) (actual : Nat)
  | ValueOutOfRange (parameter : String) (mn : Int) (mx : Int) (unit : String)
deriving DecidableEq, Repr

/-- Driver errors (`Sen66Error<I2C>` in `error.rs`), parametrised by the
transport error type.  `DeviceError`'s five flags are inlined. -/
inductive Sen66Error (ε : Type)
  | DataError (e : DataError)
  | FailedCo2Recalibration
  | I2cError (e : ε)
  | DeviceError (pm co2 gas rht fan : Bool)
  | WrongState (s : String)
deriving DecidableEq, Repr

/-- Data-ready reply (`DataStatus` in `data/data_status.rs`). -/
inductive DataStatus
  | Ready
  | NotReady
deriving DecidableEq, Repr

/-- Automatic-self-calibration state (`AscState` in `data/state.rs`). -/
inductive AscState
  | Enabled
  | Disabled
deriving DecidableEq, Repr

instance {ε α : Type} [DecidableEq ε] [DecidableEq α] : DecidableEq (Except ε α) :=
  fun a b =>
    match a, b with
    | .ok x, .ok y =>
      if h : x = y then .isTrue (by rw [h]) else .isFalse (by simp [h])
    | .ok _, .error _ => .isFalse (by simp)
    | .error _, .ok _ => .isFalse (by simp)
    | .error x, .error y =>
      if h : x = y then .isTrue (by rw [h]) else .isFalse (by simp [h])

/-! ## Checksum unit (`util.rs`) -/

/-- One shift step of the CRC-8 register: `crc = (crc << 1) ^ 0x31` when the
top bit is set, else `crc = crc << 1`, on a `u8` register (`util.rs:16-20`). -/
def crc8Shift (crc : Nat) : Nat :=
  if crc &&& 0x80 ≠ 0 then ((crc <<< 1) % 256) ^^^ 0x31 else (crc <<< 1) % 256

/-- Processing one input byte: XOR it into the register, then eight shift
steps (`util.rs:14-21`). -/
def crc8Byte (crc byte : Nat) : Nat :=
  crc8Shift^[8] (crc ^^^ byte)

/-- CRC-8 over a byte sequence with initial value `0xFF`
(`compute_crc8` in `util.rs`). -/
def compute_crc8 (data : List Nat) : Nat :=
  data.foldl crc8Byte 0xFF

/-- Checksum verification (`crc8_matches` in `util.rs`). -/
def crc8_matches (data : List Nat) (crc : Nat) : Bool :=
  compute_crc8 data == crc

/-- Successive 3-byte chunks of a buffer (`data.chunks(3)` in Rust; the last
chunk is shorter when the length is not a multiple of three). -/
def chunks3 : List Nat → List (List Nat)
  | [] => []
  | [a] => [[a]]
  | [a, b] => [[a, b]]
  | a :: b :: c :: rest => [a, b, c] :: chunks3 rest

/-- Whether a 3-byte chunk fails its CRC
(`!crc8_matches(&chunk[..2], chunk[2])`). -/
def badChunk (c : List Nat) : Bool :=
  !crc8_matches (c.take 2) (c.getD 2 0)

/-- Chunk check with the panic made explicit: `none` models the
index-out-of-bounds panic on a chunk shorter than 3. -/
def chunkCrcBad (c : List Nat) : Option Bool :=
  if 3 ≤ c.length then some (badChunk c) else none

/-- Short-circuiting `Iterator::any` over the chunks; `none` propagates a
panic from `chunkCrcBad`. -/
def anyBadChunk : List (List Nat) → Option Bool
  | [] => some false
  | c :: cs =>
    match chunkCrcBad c with
    | none => none
    | some true => some true
    | some false => anyBadChunk cs

/-- Size and checksum validation of a received buffer
(`check_deserialization` in `util.rs`).  `none` models a panic. -/
def check_deserialization (data : List Nat) (expected_len : Nat) :
    Option (Except DataError Unit) :=
  if data.length ≠ expected_len then some (.error .ReceivedBufferWrongSize)
  else
    match anyBadChunk (chunks3 data) with
    | none => none
    | some true => some (.error .CrcFailed)
    | some false => some (.ok ())

/-! ## Integer reinterpretations -/

/-- Big-endian `u16` formed from the two bytes at offsets `i`, `i+1`
(`u16::from_be_bytes([data[i], data[i+1]])`). -/
def u16At (data : List Nat) (i : Nat) : Nat :=
  256 * data.getD i 0 + data.getD (i + 1) 0

/-- Reinterpretation of a `u16` bit pattern as an `i16`
(`i16::from_be_bytes`). -/
def toI16 (v : Nat) : Int :=
  if v < 32768 then (v : Int) else (v : Int) - 65536

/-- Reinterpretation of an `i16` value as a `u16` bit pattern (`as u16`). -/
def toU16 (z : Int) : Nat :=
  (z % 65536).toNat

/-- Checked `u16` subtraction: `none` models the arithmetic-overflow panic of
Rust's `-` on underflow (with overflow checks enabled). -/
def u16Sub (a b : Nat) : Option Nat :=
  if b ≤ a then some (a - b) else none

/-! ## Range and scaling checks (`util.rs`) -/

/-- Inclusive range check (`check_range` in `util.rs`). -/
def check_range (value mn mx : Int) (name unit : String) :
    Except DataError Int :=
  if mn ≤ value ∧ value ≤ mx then .ok value
  else .error (.ValueOutOfRange name mn mx unit)

/-- `i16::checked_mul`: the product, or `none` past the `i16` limits. -/
def i16CheckedMul (a b : Int) : Option Int :=
  if -32768 ≤ a * b ∧ a * b ≤ 32767 then some (a * b) else none

/-- Scaling check over `i16` (`check_scaling` in `util.rs` at `T = i16`):
returns the scaled value, or a range error with `min = 0`,
`max = T::max_value() / scalar`. -/
def check_scaling_i16 (value scalar : Int) (name unit : String) :
    Except DataError Int :=
  match i16CheckedMul value scalar with
  | some v => .ok v
  | none => .error (.ValueOutOfRange name 0 (32767 / scalar) unit)

/-- `u16::checked_mul`: the product, or `none` past the `u16` limit. -/
def u16CheckedMul (a b : Nat) : Option Nat :=
  if a * b ≤ 65535 then some (a * b) else none

/-- Scaling check over `u16` (`check_scaling` in `util.rs` at `T = u16`). -/
def check_scaling_u16 (value scalar : Nat) (name unit : String) :
    Except DataError Nat :=
  match u16CheckedMul value scalar with
  | some v => .ok v
  | none => .error (.ValueOutOfRange name 0 ((65535 : Int) / scalar) unit)

/-! ## Value types: parsers from verified bytes -/

/-- Lifts a parser result so that a rejected buffer keeps the `DataError` and
the parse continues only on `Ok` (the `?` operator on `check_deserialization`;
`none` propagates a panic). -/
def afterCheck {α : Type} (data : List Nat) (expected : Nat)
    (k : Unit → Option (Except DataError α)) : Option (Except DataError α) :=
  match check_deserialization data expected with
  | none => none
  | some (.error e) => some (.error e)
  | some (.ok _) => k ()

/-- Parser for `DataStatus` (`data/data_status.rs`): matches on the low data
byte `data[1]`. -/
def dataStatusTryFrom (data : List Nat) : Option (Except DataError DataStatus) :=
  afterCheck data 3 fun _ =>
    match data.getD 1 0 with
    | 0x00 => some (.ok .NotReady)
    | 0x01 => some (.ok .Ready)
    | val => some (.error (.UnexpectedValueReceived "Data ready status" "0 or 1" val))

/-- Parser for `AscState` (`data/state.rs`): matches on the low data byte
`data[1]`. -/
def ascStateTryFrom (data : List Nat) : Option (Except DataError AscState) :=
  afterCheck data 3 fun _ =>
    match data.getD 1 0 with
    | 0x00 => some (.ok .Disabled)
    | 0x01 => some (.ok .Enabled)
    | val => some (.error (.UnexpectedValueReceived "ASC State" "0 or 1" val))

/-- Serialization of `AscState` to its wire word (`u16::from(AscState)`). -/
def ascStateToU16 : AscState → Nat
  | .Enabled => 0x0001
  | .Disabled => 0x0000

/-- Decoded measurement (`Measurement` in `data/measurement.rs`).  The `f32`
fields are modelled as exact rationals; the fixed-point scale factors are the
object of proof, not the `f32` rounding. -/
structure Measurement where
  pm1_0 : ℚ
  pm2_5 : ℚ
  pm4_0 : ℚ
  pm10_0 : ℚ
  relative_humidity : ℚ
  temperature : ℚ
  voc_index : ℚ
  nox_index : ℚ
  co2 : Nat
deriving DecidableEq, Repr

/-- Parser for `Measurement` (`Measurement::try_from` in
`data/measurement.rs`). -/
def measurementTryFrom (data : List Nat) : Option (Except DataError Measurement) :=
  afterCheck data 27 fun _ =>
    some (.ok
      { pm1_0 := (u16At data 0 : ℚ) / 10
        pm2_5 := (u16At data 3 : ℚ) / 10
        pm4_0 := (u16At data 6 : ℚ) / 10
        pm10_0 := (u16At data 9 : ℚ) / 10
        relative_humidity := (toI16 (u16At data 12) : ℚ) / 100
        temperature := (toI16 (u16At data 15) : ℚ) / 200
        voc_index := (toI16 (u16At data 18) : ℚ) / 10
        nox_index := (toI16 (u16At data 21) : ℚ) / 10
        co2 := u16At data 24 })

/-- Decoded raw measurement (`RawMeasurement` in `data/measurement.rs`). -/
structure RawMeasurement where
  relative_humidity : ℚ
  temperature : ℚ
  voc : Nat
  nox : Nat
  co2 : Nat
deriving DecidableEq, Repr

/-- Parser for `RawMeasurement` (`data/measurement.rs`). -/
def rawMeasurementTryFrom (data : List Nat) : Option (Except DataError RawMeasurement) :=
  afterCheck data 15 fun _ =>
    some (.ok
      { relative_humidity := (toI16 (u16At data 0) : ℚ) / 100
        temperature := (toI16 (u16At data 3) : ℚ) / 200
        voc := u16At data 6
        nox := u16At data 9
        co2 := u16At data 12 })

/-- Decoded number concentrations (`Concentrations` in `data/measurement.rs`). -/
structure Concentrations where
  pm0_5 : ℚ
  pm1_0 : ℚ
  pm2_5 : ℚ
  pm4_0 : ℚ
  pm10_0 : ℚ
deriving DecidableEq, Repr

/-- Parser for `Concentrations` (`data/measurement.rs`). -/
def concentrationsTryFrom (data : List Nat) : Option (Except DataError Concentrations) :=
  afterCheck data 15 fun _ =>
    some (.ok
      { pm0_5 := (u16At data 0 : ℚ) / 10
        pm1_0 := (u16At data 3 : ℚ) / 10
        pm2_5 := (u16At data 6 : ℚ) / 10
        pm4_0 := (u16At data 9 : ℚ) / 10
        pm10_0 := (u16At data 12 : ℚ) / 10 })

/-- Parser for `DeviceStatusRegister` (`data/state.rs`): `u32` assembled from
bytes 0, 1, 3, 4. -/
def deviceStatusTryFrom (data : List Nat) : Option (Except DataError Nat) :=
  afterCheck data 6 fun _ =>
    some (.ok (2 ^ 24 * data.getD 0 0 + 2 ^ 16 * data.getD 1 0 +
               2 ^ 8 * data.getD 3 0 + data.getD 4 0))

/-- Parser for `VocAlgorithmState` (`data/state.rs`): the eight data bytes. -/
def vocAlgorithmStateTryFrom (data : List Nat) : Option (Except DataError (List Nat)) :=
  afterCheck data 12 fun _ =>
    some (.ok [data.getD 0 0, data.getD 1 0, data.getD 3 0, data.getD 4 0,
               data.getD 6 0, data.getD 7 0, data.getD 9 0, data.getD 10 0])

/-- Serialization of a VOC algorithm state to wire words
(`<[u16; 4]>::from(VocAlgorithmState)`). -/
def vocAlgorithmStateToWords (s : List Nat) : List Nat :=
  [256 * s.getD 0 0 + s.getD 1 0, 256 * s.getD 2 0 + s.getD 3 0,
   256 * s.getD 4 0 + s.getD 5 0, 256 * s.getD 6 0 + s.getD 7 0]

/-- Bounded ASCII string parse state (`SmallString` in
`data/product_data.rs`): up to 32 stored bytes plus a logical length. -/
structure SmallString where
  name : List Nat
  len : Nat
deriving DecidableEq, Repr

/-- Loop body of `SmallString::try_from`: walk the indexed bytes, skip every
third (checksum) byte, reject non-ASCII, stop after storing a NUL. -/
def smallStringLoop : List (Nat × Nat) → List Nat → Nat → Except DataError SmallString
  | [], name, len => .ok ⟨name, len⟩
  | (i, c) :: rest, name, len =>
    if (i + 1) % 3 = 0 then smallStringLoop rest name len
    else if ¬ c < 128 then .error .NotASCIIString
    else if c = 0 then .ok ⟨name.set len c, len + 1⟩
    else smallStringLoop rest (name.set len c) (len + 1)

/-- Parser for `SmallString` (`data/product_data.rs`): 48-byte buffer,
checksum-checked, then the ASCII scan. -/
def smallStringTryFrom (data : List Nat) : Option (Except DataError SmallString) :=
  afterCheck data 48 fun _ =>
    some (smallStringLoop data.enum (List.replicate 32 0) 0)

/-! ## Value types: configuration constructors (`configuration/`) -/

/-- Validated tuning block (`Tuning` in `configuration/tuning.rs`). -/
structure Tuning where
  index_offset : Int
  learning_time_offset : Int
  learning_time_gain : Int
  gating_max_durations : Int
  initial_standard_deviation : Int
  gain_factor : Int
deriving DecidableEq, Repr

/-- Constructor `Tuning::new` (`configuration/tuning.rs`): six independent
range checks, evaluated in field order. -/
def tuningNew (index_offset learning_time_offset learning_time_gain
    gating_max_durations initial_standard_deviation gain_factor : Int) :
    Except DataError Tuning :=
  match check_range index_offset 1 250 "VOC Index Offset" "" with
  | .error e => .error e
  | .ok a =>
    match check_range learning_time_offset 1 1000 "VOC Learning Time Offset" "h" with
    | .error e => .error e
    | .ok b =>
      match check_range learning_time_gain 1 1000 "VOC Learning Time Gain" "h" with
      | .error e => .error e
      | .ok c =>
        match check_range gating_max_durations 0 3000 "VOC Gating Max Duration" "min" with
        | .error e => .error e
        | .ok d =>
          match check_range initial_standard_deviation 10 5000
              "VOC Initial Standard Deviation" "" with
          | .error e => .error e
          | .ok s =>
            match check_range gain_factor 1 1000 "VOC Gain Factor" "" with
            | .error e => .error e
            | .ok f => .ok ⟨a, b, c, d, s, f⟩

/-- Constructor `VocTuning::new` (`configuration/tuning.rs`). -/
def vocTuningNew (i lto ltg gmd isd gf : Int) : Except DataError Tuning :=
  tuningNew i lto ltg gmd isd gf

/-- Constructor `NoxTuning::new` (`configuration/tuning.rs`): fixes the
initial standard deviation at 50. -/
def noxTuningNew (i lto ltg gmd gf : Int) : Except DataError Tuning :=
  tuningNew i lto ltg gmd 50 gf

/-- Serialization of a tuning block to wire words
(`<[u16; 6]>::from(Tuning)`). -/
def tuningToWords (t : Tuning) : List Nat :=
  [toU16 t.index_offset, toU16 t.learning_time_offset, toU16 t.learning_time_gain,
   toU16 t.gating_max_durations, toU16 t.initial_standard_deviation, toU16 t.gain_factor]

/-- Parser `Tuning::try_from` (`configuration/tuning.rs`): 18-byte buffer,
then `Tuning::new` on the six big-endian `i16` words. -/
def tuningTryFrom (data : List Nat) : Option (Except DataError Tuning) :=
  afterCheck data 18 fun _ =>
    some (tuningNew (toI16 (u16At data 0)) (toI16 (u16At data 3)) (toI16 (u16At data 6))
      (toI16 (u16At data 9)) (toI16 (u16At data 12)) (toI16 (u16At data 15)))

/-- Validated temperature offset block (`TemperatureOffset` in
`configuration/temperature.rs`); `offset` and `slope` are stored scaled. -/
structure TemperatureOffset where
  offset : Int
  slope : Int
  time_constant : Nat
  slot : Nat
deriving DecidableEq, Repr

/-- Constructor `TemperatureOffset::new` (`configuration/temperature.rs`):
scaling checks on offset (×200) and slope (×10,000), slot restricted to 0–4,
`time_constant` unchecked. -/
def temperatureOffsetNew (offset slope : Int) (time_constant slot : Nat) :
    Except DataError TemperatureOffset :=
  match check_scaling_i16 offset 200 "Temperature Offset" "°C" with
  | .error e => .error e
  | .ok o =>
    match check_scaling_i16 slope 10000 "Temperature Slope" "" with
    | .error e => .error e
    | .ok s =>
      if slot ≤ 4 then .ok ⟨o, s, time_constant, slot⟩
      else .error (.ValueOutOfRange "Temperature Slope" 0 4 "")

/-- Serialization of a temperature offset to wire words
(`<[u16; 4]>::from(TemperatureOffset)`). -/
def temperatureOffsetToWords (t : TemperatureOffset) : List Nat :=
  [toU16 t.offset, toU16 t.slope, t.time_constant, t.slot]

/-- Validated temperature acceleration block (`TemperatureAcceleration` in
`configuration/temperature.rs`); all fields stored scaled ×10. -/
structure TemperatureAcceleration where
  k : Nat
  p : Nat
  t1 : Nat
  t2 : Nat
deriving DecidableEq, Repr

/-- Constructor `TemperatureAcceleration::new`
(`configuration/temperature.rs`). -/
def temperatureAccelerationNew (k p t1 t2 : Nat) :
    Except DataError TemperatureAcceleration :=
  match check_scaling_u16 k 10 "Temperature Acceleration K" "" with
  | .error e => .error e
  | .ok a =>
    match check_scaling_u16 p 10 "Temperature Acceleration P" "" with
    | .error e => .error e
    | .ok b =>
      match check_scaling_u16 t1 10 "Temperature Acceleration T1" "" with
      | .error e => .error e
      | .ok c =>
        match check_scaling_u16 t2 10 "Temperature Acceleration T2" "" with
        | .error e => .error e
        | .ok d => .ok ⟨a, b, c, d⟩

/-- Serialization of a temperature acceleration block to wire words. -/
def temperatureAccelerationToWords (t : TemperatureAcceleration) : List Nat :=
  [t.k, t.p, t.t1, t.t2]

/-- Constructor for `AmbientPressure` from a `u16`
(`AmbientPressure::try_from` in `configuration/mod.rs`). -/
def ambientPressureNew (value : Nat) : Except DataError Nat :=
  match check_range value 700 1200 "Ambient Pressure" "hPa" with
  | .error e => .error e
  | .ok _ => .ok value

/-- Parser for `AmbientPressure` from received bytes
(`configuration/mod.rs`): the raw word, unchecked. -/
def ambientPressureTryFrom (data : List Nat) : Option (Except DataError Nat) :=
  afterCheck data 3 fun _ => some (.ok (u16At data 0))

/-- Constructor for `SensorAltitude` from a `u16`
(`SensorAltitude::try_from` in `configuration/mod.rs`). -/
def sensorAltitudeNew (value : Nat) : Except DataError Nat :=
  match check_range value 0 3000 "Sensor Altitude" "m" with
  | .error e => .error e
  | .ok _ => .ok value

/-- Parser for `SensorAltitude` from received bytes (`configuration/mod.rs`). -/
def sensorAltitudeTryFrom (data : List Nat) : Option (Except DataError Nat) :=
  afterCheck data 3 fun _ => some (.ok (u16At data 0))

/-- Validity test on a CO2 correction (`Co2Correction::is_valid` in
`configuration/mod.rs`). -/
def co2CorrectionIsValid (v : Nat) : Bool :=
  v != 0xFFFF

/-- Parser `Co2Correction::try_from` (`configuration/mod.rs`): subtracts
`0x8000` from every word other than `0xFFFF` on the `u16` type (`u16Sub`
makes the possible underflow panic explicit). -/
def co2CorrectionTryFrom (data : List Nat) : Option (Except DataError Nat) :=
  afterCheck data 3 fun _ =>
    let value := u16At data 0
    if value ≠ 0xFFFF then
      match u16Sub value 0x8000 with
      | none => none
      | some v => some (.ok v)
    else
      some (.ok value)

/-! ## Command catalog (`command.rs`) -/

/-- The closed opcode set (`Command` in `command.rs`). -/
inductive Command
  | StartContinuousMeasurement
  | StopMeasurement
  | GetDataReady
  | ReadMeasurement
  | ReadRawMeasurement
  | ReadNumberConcentrationValues
  | SetTemperatureOffsetParameters
  | SetTemperatureAccelerationParameters
  | GetProductName
  | GetSerialNumber
  | GetDeviceStatus
  | ReadAndClearDeviceStatus
  | ResetDevice
  | StartFanCleaning
  | ActivateShtHeater
  | SetReadVocTuningParameters
  | SetReadVocAlgorithmState
  | SetReadNoxTuningParameters
  | ForcedRecalibration
  | SetReadCo2AutomaticSelfCalibration
  | SetReadAmbientPreassure
  | SetReadSensorAltitude
deriving DecidableEq, Repr

/-- The 16-bit wire value of each command (enum discriminants in
`command.rs`). -/
def Command.opcode : Command → Nat
  | .StartContinuousMeasurement => 0x0021
  | .StopMeasurement => 0x0104
  | .GetDataReady => 0x0202
  | .ReadMeasurement => 0x0300
  | .ReadRawMeasurement => 0x0405
  | .ReadNumberConcentrationValues => 0x0316
  | .SetTemperatureOffsetParameters => 0x60B2
  | .SetTemperatureAccelerationParameters => 0x6100
  | .GetProductName => 0xD014
  | .GetSerialNumber => 0xD033
  | .GetDeviceStatus => 0xD206
  | .ReadAndClearDeviceStatus => 0xD210
  | .ResetDevice => 0xD304
  | .StartFanCleaning => 0x5607
  | .ActivateShtHeater => 0x3730
  | .SetReadVocTuningParameters => 0x60D0
  | .SetReadVocAlgorithmState => 0x6181
  | .SetReadNoxTuningParameters => 0x60E1
  | .ForcedRecalibration => 0x6707
  | .SetReadCo2AutomaticSelfCalibration => 0x6711
  | .SetReadAmbientPreassure => 0x6720
  | .SetReadSensorAltitude => 0x6736

/-- Big-endian bytes of a command (`Command::to_be_bytes`). -/
def Command.toBeBytes (c : Command) : List Nat :=
  [c.opcode / 256 % 256, c.opcode % 256]

/-! ## Protocol engine (`interface.rs`) -/

/-- Framing of one 16-bit data word for transmission: big-endian bytes
followed by their CRC (the loop body of `Sen66::write`,
`interface.rs:726-731`). -/
def encodeWord (w : Nat) : List Nat :=
  [w / 256 % 256, w % 256, compute_crc8 [w / 256 % 256, w % 256]]

/-- Framing of a word sequence (the data section written by `Sen66::write`). -/
def encodeData (ws : List Nat) : List Nat :=
  ws.flatMap encodeWord

/-- The exact byte frame `Sen66::write` puts on the bus: 2 opcode bytes, then
each data word framed by `encodeWord`. -/
def buildFrame (c : Command) (data : Option (List Nat)) : List Nat :=
  c.toBeBytes ++ (match data with | none => [] | some ws => encodeData ws)

/-- Word extraction applied by every reply parser after
`check_deserialization`: the big-endian `u16` of each 3-byte group
(`u16::from_be_bytes([data[3*i], data[3*i+1]])`). -/
def extractWords (data : List Nat) : List Nat :=
  (chunks3 data).map fun ch => 256 * ch.getD 0 0 + ch.getD 1 0

/-- Outcome oracle for one transaction on the injected transport: the result
of the I2C write, and the result of the I2C read (the bytes that fill the
RX-sized buffer). -/
structure Bus (ε : Type) where
  writeResult : Except ε Unit
  readResult : Except ε (List Nat)
deriving Repr

/-- One `Sen66::write` call: the frame is put on the bus, the outcome is the
oracle's write result. -/
def opWrite {ε : Type} (bus : Bus ε) (c : Command) (data : Option (List Nat)) :
    Except ε Unit × List (List Nat) :=
  (bus.writeResult, [buildFrame c data])

/-- One `Sen66::write_read` call: `write` then `read`, each aborting on a
transport error. -/
def opWriteRead {ε : Type} (bus : Bus ε) (c : Command) (data : Option (List Nat)) :
    Except ε (List Nat) × List (List Nat) :=
  match bus.writeResult with
  | .error e => (.error e, [buildFrame c data])
  | .ok _ => (bus.readResult, [buildFrame c data])

/-- Result of one driver operation: the returned value (`none` models a
panic), the session state after the call, and the list of byte frames the
call put on the bus. -/
structure OpResult (ε α : Type) where
  out : Option (Except (Sen66Error ε) α)
  state : SensorState
  writes : List (List Nat)
deriving Repr

/-- Lifts a parser result into the driver error type (the `?` conversion
`DataError → Sen66Error`). -/
def liftData {ε α : Type} : Option (Except DataError α) → Option (Except (Sen66Error ε) α)
  | none => none
  | some (.error e) => some (.error (.DataError e))
  | some (.ok a) => some (.ok a)

/-- `Sen66::start_measurement` (`interface.rs:73-81`). -/
def start_measurement {ε : Type} (st : SensorState) (bus : Bus ε) : OpResult ε Unit :=
  if st ≠ SensorState.Idle then ⟨some (.error (.WrongState "Measuring")), st, []⟩
  else
    match opWrite bus .StartContinuousMeasurement none with
    | (.error e, ws) => ⟨some (.error (.I2cError e)), st, ws⟩
    | (.ok _, ws) => ⟨some (.ok ()), SensorState.Measuring, ws⟩

/-- `Sen66::stop_measurement` (`interface.rs:94-101`). -/
def stop_measurement {ε : Type} (st : SensorState) (bus : Bus ε) : OpResult ε Unit :=
  if st ≠ SensorState.Measuring then ⟨some (.error (.WrongState "Idle")), st, []⟩
  else
    match opWrite bus .StopMeasurement none with
    | (.error e, ws) => ⟨some (.error (.I2cError e)), st, ws⟩
    | (.ok _, ws) => ⟨some (.ok ()), SensorState.Idle, ws⟩

/-- `Sen66::is_data_ready` (`interface.rs:115-121`). -/
def is_data_ready {ε : Type} (st : SensorState) (bus : Bus ε) : OpResult ε DataStatus :=
  if st ≠ SensorState.Measuring then ⟨some (.error (.WrongState "Idle")), st, []⟩
  else
    match opWriteRead bus .GetDataReady none with
    | (.error e, ws) => ⟨some (.error (.I2cError e)), st, ws⟩
    | (.ok received, ws) => ⟨liftData (dataStatusTryFrom received), st, ws⟩

/-- `Sen66::read_measured_values` (`interface.rs:138-146`). -/
def read_measured_values {ε : Type} (st : SensorState) (bus : Bus ε) :
    OpResult ε Measurement :=
  if st ≠ SensorState.Measuring then ⟨some (.error (.WrongState "Idle")), st, []⟩
  else
    match opWriteRead bus .ReadMeasurement none with
    | (.error e, ws) => ⟨some (.error (.I2cError e)), st, ws⟩
    | (.ok received, ws) => ⟨liftData (measurementTryFrom received), st, ws⟩

/-- `Sen66::read_measured_raw_values` (`interface.rs:163-173`). -/
def read_measured_raw_values {ε : Type} (st : SensorState) (bus : Bus ε) :
    OpResult ε RawMeasurement :=
  if st ≠ SensorState.Measuring then ⟨some (.error (.WrongState "Idle")), st, []⟩
  else
    match opWriteRead bus .ReadRawMeasurement none with
    | (.error e, ws) => ⟨some (.error (.I2cError e)), st, ws⟩
    | (.ok received, ws) => ⟨liftData (rawMeasurementTryFrom received), st, ws⟩

/-- `Sen66::read_number_concentrations` (`interface.rs:190-200`). -/
def read_number_concentrations {ε : Type} (st : SensorState) (bus : Bus ε) :
    OpResult ε Concentrations :=
  if st ≠ SensorState.Measuring then ⟨some (.error (.WrongState "Idle")), st, []⟩
  else
    match opWriteRead bus .ReadNumberConcentrationValues none with
    | (.error e, ws) => ⟨some (.error (.I2cError e)), st, ws⟩
    | (.ok received, ws) => ⟨liftData (concentrationsTryFrom received), st, ws⟩

/-- `Sen66::set_temperature_offset` (`interface.rs:210-220`): ungated. -/
def set_temperature_offset {ε : Type} (st : SensorState) (bus : Bus ε)
    (parameter : TemperatureOffset) : OpResult ε Unit :=
  match opWrite bus .SetTemperatureOffsetParameters (some (temperatureOffsetToWords parameter)) with
  | (.error e, ws) => ⟨some (.error (.I2cError e)), st, ws⟩
  | (.ok _, ws) => ⟨some (.ok ()), st, ws⟩

/-- `Sen66::set_temperature_acceleration` (`interface.rs:233-246`). -/
def set_temperature_acceleration {ε : Type} (st : SensorState) (bus : Bus ε)
    (parameter : TemperatureAcceleration) : OpResult ε Unit :=
  if st ≠ SensorState.Idle then ⟨some (.error (.WrongState "Measuring")), st, []⟩
  else
    match opWrite bus .SetTemperatureAccelerationParameters
        (some (temperatureAccelerationToWords parameter)) with
    | (.error e, ws) => ⟨some (.error (.I2cError e)), st, ws⟩
    | (.ok _, ws) => ⟨some (.ok ()), st, ws⟩

/-- `Sen66::get_product_name` (`interface.rs:257-262`): ungated. -/
def get_product_name {ε : Type} (st : SensorState) (bus : Bus ε) :
    OpResult ε SmallString :=
  match opWriteRead bus .GetProductName none with
  | (.error e, ws) => ⟨some (.error (.I2cError e)), st, ws⟩
  | (.ok received, ws) => ⟨liftData (smallStringTryFrom received), st, ws⟩

/-- `Sen66::get_serial_number` (`interface.rs:273-278`): ungated. -/
def get_serial_number {ε : Type} (st : SensorState) (bus : Bus ε) :
    OpResult ε SmallString :=
  match opWriteRead bus .GetSerialNumber none with
  | (.error e, ws) => ⟨some (.error (.I2cError e)), st, ws⟩
  | (.ok received, ws) => ⟨liftData (smallStringTryFrom received), st, ws⟩

/-- `Sen66::read_device_status` (`interface.rs:290-297`): ungated. -/
def read_device_status {ε : Type} (st : SensorState) (bus : Bus ε) : OpResult ε Nat :=
  match opWriteRead bus .GetDeviceStatus none with
  | (.error e, ws) => ⟨some (.error (.I2cError e)), st, ws⟩
  | (.ok received, ws) => ⟨liftData (deviceStatusTryFrom received), st, ws⟩

/-- `Sen66::read_and_clear_device_status` (`interface.rs:309-316`): ungated. -/
def read_and_clear_device_status {ε : Type} (st : SensorState) (bus : Bus ε) :
    OpResult ε Nat :=
  match opWriteRead bus .ReadAndClearDeviceStatus none with
  | (.error e, ws) => ⟨some (.error (.I2cError e)), st, ws⟩
  | (.ok received, ws) => ⟨liftData (deviceStatusTryFrom received), st, ws⟩

/-- `Sen66::reset_device` (`interface.rs:328-333`). -/
def reset_device {ε : Type} (st : SensorState) (bus : Bus ε) : OpResult ε Unit :=
  if st ≠ SensorState.Idle then ⟨some (.error (.WrongState "Measuring")), st, []⟩
  else
    match opWrite bus .ResetDevice none with
    | (.error e, ws) => ⟨some (.error (.I2cError e)), st, ws⟩
    | (.ok _, ws) => ⟨some (.ok ()), st, ws⟩

/-- `Sen66::start_fan_cleaning` (`interface.rs:347-352`). -/
def start_fan_cleaning {ε : Type} (st : SensorState) (bus : Bus ε) : OpResult ε Unit :=
  if st ≠ SensorState.Idle then ⟨some (.error (.WrongState "Measuring")), st, []⟩
  else
    match opWrite bus .StartFanCleaning none with
    | (.error e, ws) => ⟨some (.error (.I2cError e)), st, ws⟩
    | (.ok _, ws) => ⟨some (.ok ()), st, ws⟩

/-- `Sen66::activate_sht_heater` (`interface.rs:366-371`). -/
def activate_sht_heater {ε : Type} (st : SensorState) (bus : Bus ε) : OpResult ε Unit :=
  if st ≠ SensorState.Idle then ⟨some (.error (.WrongState "Measuring")), st, []⟩
  else
    match opWrite bus .ActivateShtHeater none with
    | (.error e, ws) => ⟨some (.error (.I2cError e)), st, ws⟩
    | (.ok _, ws) => ⟨some (.ok ()), st, ws⟩

/-- `Sen66::get_voc_tuning_parameters` (`interface.rs:385-395`). -/
def get_voc_tuning_parameters {ε : Type} (st : SensorState) (bus : Bus ε) :
    OpResult ε Tuning :=
  if st ≠ SensorState.Idle then ⟨some (.error (.WrongState "Measuring")), st, []⟩
  else
    match opWriteRead bus .SetReadVocTuningParameters none with
    | (.error e, ws) => ⟨some (.error (.I2cError e)), st, ws⟩
    | (.ok received, ws) => ⟨liftData (tuningTryFrom received), st, ws⟩

/-- `Sen66::set_voc_tuning_parameters` (`interface.rs:407-419`). -/
def set_voc_tuning_parameters {ε : Type} (st : SensorState) (bus : Bus ε)
    (parameter : Tuning) : OpResult ε Unit :=
  if st ≠ SensorState.Idle then ⟨some (.error (.WrongState "Measuring")), st, []⟩
  else
    match opWrite bus .SetReadVocTuningParameters (some (tuningToWords parameter)) with
    | (.error e, ws) => ⟨some (.error (.I2cError e)), st, ws⟩
    | (.ok _, ws) => ⟨some (.ok ()), st, ws⟩

/-- `Sen66::get_voc_algorithm_state` (`interface.rs:435-442`): ungated. -/
def get_voc_algorithm_state {ε : Type} (st : SensorState) (bus : Bus ε) :
    OpResult ε (List Nat) :=
  match opWriteRead bus .SetReadVocAlgorithmState none with
  | (.error e, ws) => ⟨some (.error (.I2cError e)), st, ws⟩
  | (.ok received, ws) => ⟨liftData (vocAlgorithmStateTryFrom received), st, ws⟩

/-- `Sen66::set_voc_algorithm_state` (`interface.rs:456-468`). -/
def set_voc_algorithm_state {ε : Type} (st : SensorState) (bus : Bus ε)
    (parameter : List Nat) : OpResult ε Unit :=
  if st ≠ SensorState.Idle then ⟨some (.error (.WrongState "Measuring")), st, []⟩
  else
    match opWrite bus .SetReadVocAlgorithmState (some (vocAlgorithmStateToWords parameter)) with
    | (.error e, ws) => ⟨some (.error (.I2cError e)), st, ws⟩
    | (.ok _, ws) => ⟨some (.ok ()), st, ws⟩

/-- `Sen66::get_nox_tuning_parameters` (`interface.rs:482-492`). -/
def get_nox_tuning_parameters {ε : Type} (st : SensorState) (bus : Bus ε) :
    OpResult ε Tuning :=
  if st ≠ SensorState.Idle then ⟨some (.error (.WrongState "Measuring")), st, []⟩
  else
    match opWriteRead bus .SetReadNoxTuningParameters none with
    | (.error e, ws) => ⟨some (.error (.I2cError e)), st, ws⟩
    | (.ok received, ws) => ⟨liftData (tuningTryFrom received), st, ws⟩

/-- `Sen66::set_nox_tuning_parameters` (`interface.rs:504-516`). -/
def set_nox_tuning_parameters {ε : Type} (st : SensorState) (bus : Bus ε)
    (parameter : Tuning) : OpResult ε Unit :=
  if st ≠ SensorState.Idle then ⟨some (.error (.WrongState "Measuring")), st, []⟩
  else
    match opWrite bus .SetReadNoxTuningParameters (some (tuningToWords parameter)) with
    | (.error e, ws) => ⟨some (.error (.I2cError e)), st, ws⟩
    | (.ok _, ws) => ⟨some (.ok ()), st, ws⟩

/-- `Sen66::perform_forced_co2_recalibration` (`interface.rs:532-551`):
writes the target concentration word, decodes the correction, and maps an
invalid correction to the dedicated recalibration failure. -/
def perform_forced_co2_recalibration {ε : Type} (st : SensorState) (bus : Bus ε)
    (parameter : Nat) : OpResult ε Nat :=
  if st ≠ SensorState.Idle then ⟨some (.error (.WrongState "Measuring")), st, []⟩
  else
    match opWriteRead bus .ForcedRecalibration (some [parameter]) with
    | (.error e, ws) => ⟨some (.error (.I2cError e)), st, ws⟩
    | (.ok received, ws) =>
      match co2CorrectionTryFrom received with
      | none => ⟨none, st, ws⟩
      | some (.error e) => ⟨some (.error (.DataError e)), st, ws⟩
      | some (.ok value) =>
        if ¬ co2CorrectionIsValid value then ⟨some (.error .FailedCo2Recalibration), st, ws⟩
        else ⟨some (.ok value), st, ws⟩

/-- `Sen66::get_co2_asc_state` (`interface.rs:566-574`). -/
def get_co2_asc_state {ε : Type} (st : SensorState) (bus : Bus ε) : OpResult ε AscState :=
  if st ≠ SensorState.Idle then ⟨some (.error (.WrongState "Measuring")), st, []⟩
  else
    match opWriteRead bus .SetReadCo2AutomaticSelfCalibration none with
    | (.error e, ws) => ⟨some (.error (.I2cError e)), st, ws⟩
    | (.ok received, ws) => ⟨liftData (ascStateTryFrom received), st, ws⟩

/-- `Sen66::set_co2_asc_state` (`interface.rs:587-599`). -/
def set_co2_asc_state {ε : Type} (st : SensorState) (bus : Bus ε)
    (new_state : AscState) : OpResult ε Unit :=
  if st ≠ SensorState.Idle then ⟨some (.error (.WrongState "Measuring")), st, []⟩
  else
    match opWrite bus .SetReadCo2AutomaticSelfCalibration (some [ascStateToU16 new_state]) with
    | (.error e, ws) => ⟨some (.error (.I2cError e)), st, ws⟩
    | (.ok _, ws) => ⟨some (.ok ()), st, ws⟩

/-- `Sen66::get_ambient_pressure` (`interface.rs:610-617`): ungated. -/
def get_ambient_pressure {ε : Type} (st : SensorState) (bus : Bus ε) : OpResult ε Nat :=
  match opWriteRead bus .SetReadAmbientPreassure none with
  | (.error e, ws) => ⟨some (.error (.I2cError e)), st, ws⟩
  | (.ok received, ws) => ⟨liftData (ambientPressureTryFrom received), st, ws⟩

/-- `Sen66::set_ambient_pressure` (`interface.rs:626-635`): ungated. -/
def set_ambient_pressure {ε : Type} (st : SensorState) (bus : Bus ε)
    (parameter : Nat) : OpResult ε Unit :=
  match opWrite bus .SetReadAmbientPreassure (some [parameter]) with
  | (.error e, ws) => ⟨some (.error (.I2cError e)), st, ws⟩
  | (.ok _, ws) => ⟨some (.ok ()), st, ws⟩

/-- `Sen66::get_sensor_altitude` (`interface.rs:649-657`). -/
def get_sensor_altitude {ε : Type} (st : SensorState) (bus : Bus ε) : OpResult ε Nat :=
  if st ≠ SensorState.Idle then ⟨some (.error (.WrongState "Measuring")), st, []⟩
  else
    match opWriteRead bus .SetReadSensorAltitude none with
    | (.error e, ws) => ⟨some (.error (.I2cError e)), st, ws⟩
    | (.ok received, ws) => ⟨liftData (sensorAltitudeTryFrom received), st, ws⟩

/-- `Sen66::set_sensor_altitude` (`interface.rs:669-681`). -/
def set_sensor_altitude {ε : Type} (st : SensorState) (bus : Bus ε)
    (parameter : Nat) : OpResult ε Unit :=
  if st ≠ SensorState.Idle then ⟨some (.error (.WrongState "Measuring")), st, []⟩
  else
    match opWrite bus .SetReadSensorAltitude (some [parameter]) with
    | (.error e, ws) => ⟨some (.error (.I2cError e)), st, ws⟩
    | (.ok _, ws) => ⟨some (.ok ()), st, ws⟩

/-- `Sen66::shutdown` (`interface.rs:690-695`): stops an active measurement
(through `stop_measurement`) before releasing the peripherals; the resulting
internal state is reported for the state-machine analysis. -/
def shutdown {ε : Type} (st : SensorState) (bus : Bus ε) : OpResult ε Unit :=
  if st = SensorState.Measuring then
    match stop_measurement st bus with
    | ⟨some (.error e), st2, ws⟩ => ⟨some (.error e), st2, ws⟩
    | ⟨some (.ok _), st2, ws⟩ => ⟨some (.ok ()), st2, ws⟩
    | ⟨none, st2, ws⟩ => ⟨none, st2, ws⟩
  else ⟨some (.ok ()), st, []⟩

/-- `Sen66::kill` (`interface.rs:698-700`): returns the peripherals without
touching the sensor. -/
def kill {ε : Type} (st : SensorState) (_bus : Bus ε) : OpResult ε Unit :=
  ⟨some (.ok ()), st, []⟩

/-- Initial session state of a fresh interface (`Sen66::new`,
`interface.rs:53-59`). -/
def newState : SensorState :=
  SensorState.Idle

/-! ## Specification-side CRC: bit-serial polynomial division

The spec fixes the checksum as the catalogued CRC-8 with polynomial `0x31`,
initial value `0xFF`, no input or output reflection and zero XOR-out
(CRC-8/NRSC-5).  That catalogue entry denotes bit-serial division of the
message polynomial by `x^8 + x^5 + x^4 + 1`: the 8-bit remainder register
starts at the initial value, message bits enter most-significant first (no
reflection), each step compares the incoming bit with the register's top bit
and, on mismatch with the shifted-out bit, subtracts the generator; the final
register is the checksum unchanged (zero XOR-out). -/

/-- The bits of one byte, most significant first (no input reflection). -/
def byteBitsMSB (b : Nat) : List Bool :=
  [b.testBit 7, b.testBit 6, b.testBit 5, b.testBit 4,
   b.testBit 3, b.testBit 2, b.testBit 1, b.testBit 0]

/-- One bit of polynomial long division: feedback is the register's top bit
XOR the incoming message bit; the register shifts and conditionally absorbs
the generator's low bits `0x31`. -/
def crc8PolyDivStep (reg : Nat) (bit : Bool) : Nat :=
  let fb := reg.testBit 7 != bit
  let shifted := (reg <<< 1) % 256
  if fb then shifted ^^^ 0x31 else shifted

/-- CRC-8/NRSC-5 as polynomial division over the message bit stream, written
from the spec's parameter list (poly `0x31`, init `0xFF`, refin = refout =
false, xorout `0x00`). -/
def crc8PolyDiv (data : List Nat) : Nat :=
  (data.flatMap byteBitsMSB).foldl crc8PolyDivStep 0xFF

/-- The pending (not yet processed) message bits of a byte register `m`:
its top bit, then the pending bits of the shifted register. -/
def msbBits : Nat → Nat → List Bool
  | 0, _ => []
  | n + 1, m => m.testBit 7 :: msbBits n ((m <<< 1) % 256)

/-- XOR is left-commutative on `Nat`. -/
theorem natXor_left_comm (a b c : Nat) : a ^^^ (b ^^^ c) = b ^^^ (a ^^^ c) := by
  rw [← Nat.xor_assoc, Nat.xor_comm a b, Nat.xor_assoc]

/-- Wrapped left shift distributes over XOR. -/
theorem shiftWrap_xor (x y : Nat) :
    ((x ^^^ y) <<< 1) % 256 = ((x <<< 1) % 256) ^^^ ((y <<< 1) % 256) := by
  have h256 : (256 : Nat) = 2 ^ 8 := rfl
  apply Nat.eq_of_testBit_eq
  intro i
  rw [h256]
  simp only [Nat.testBit_mod_two_pow, Nat.testBit_shiftLeft, Nat.testBit_xor]
  cases h8 : decide (i < 8) <;> cases h1 : decide (i ≥ 1) <;>
    cases hx : x.testBit (i - 1) <;> cases hy : y.testBit (i - 1) <;> simp_all

/-- Pre-loading a message byte into the register commutes with one division
step: dividing with the top message bit as input equals one blind register
shift of the XOR-combined value (the rest of the message shifts along). -/
theorem crc8Shift_split (r m : Nat) :
    crc8Shift (r ^^^ m) = crc8PolyDivStep r (m.testBit 7) ^^^ ((m <<< 1) % 256) := by
  have hand : (r ^^^ m) &&& 128 = ((r ^^^ m).testBit 7).toNat * 128 :=
    Nat.and_two_pow (r ^^^ m) 7
  unfold crc8Shift crc8PolyDivStep
  rw [shiftWrap_xor]
  cases hr : r.testBit 7 <;> cases hm : m.testBit 7 <;>
    simp [hand, Nat.testBit_xor, hr, hm, Nat.xor_assoc, Nat.xor_comm, natXor_left_comm]

/-- Folding the pending bits of a register through the division equals blind
register shifts of the pre-loaded XOR, with the still-unconsumed message part
shifted along. -/
theorem foldl_msbBits (n : Nat) : ∀ r m : Nat, m < 256 →
    (msbBits n m).foldl crc8PolyDivStep r =
      (crc8Shift^[n] (r ^^^ m)) ^^^ ((m <<< n) % 256) := by
  induction n with
  | zero =>
    intro r m hm
    simp [msbBits, Nat.mod_eq_of_lt hm, Nat.xor_cancel_right]
  | succ n ih =>
    intro r m hm
    simp only [msbBits, List.foldl_cons]
    rw [ih (crc8PolyDivStep r (m.testBit 7)) ((m <<< 1) % 256)
      (Nat.mod_lt _ (by norm_num)), Function.iterate_succ_apply, crc8Shift_split]
    congr 1
    rw [Nat.shiftLeft_eq, Nat.shiftLeft_eq, Nat.shiftLeft_eq, Nat.mod_mul_mod,
      Nat.mul_assoc, ← Nat.pow_add, Nat.add_comm 1 n]

set_option maxHeartbeats 1000000 in
set_option maxRecDepth 10000 in
/-- The MSB-first bit list of a byte is exactly the pending-bits list of the
byte loaded into an 8-bit register. -/
theorem byteBitsMSB_eq_msbBits : ∀ b < 256, byteBitsMSB b = msbBits 8 b := by
  decide

/-- Every register shift lands below 256. -/
theorem crc8Shift_lt (x : Nat) : crc8Shift x < 256 := by
  unfold crc8Shift
  split
  · exact Nat.xor_lt_two_pow (n := 8) (Nat.mod_lt _ (by norm_num)) (by norm_num)
  · exact Nat.mod_lt _ (by norm_num)

/-- The byte step keeps the register below 256. -/
theorem crc8Byte_lt (c b : Nat) : crc8Byte c b < 256 := by
  unfold crc8Byte
  rw [show (8 : Nat) = 7 + 1 from rfl, Function.iterate_succ_apply']
  exact crc8Shift_lt _

/-- Processing one byte bit-serially through the polynomial division equals
the implementation's byte step. -/
theorem foldl_byteBits_eq_crc8Byte (c b : Nat) (hb : b < 256) :
    (byteBitsMSB b).foldl crc8PolyDivStep c = crc8Byte c b := by
  rw [byteBitsMSB_eq_msbBits b hb, foldl_msbBits 8 c b hb]
  have : (b <<< 8) % 256 = 0 := by
    rw [Nat.shiftLeft_eq]
    omega
  rw [this, Nat.xor_zero]
  rfl

/-- Folding whole bytes equals folding their concatenated bit streams. -/
theorem crc8_fold_bytes (l : List Nat) : ∀ c : Nat, (∀ b ∈ l, b < 256) →
    (l.flatMap byteBitsMSB).foldl crc8PolyDivStep c = l.foldl crc8Byte c := by
  induction l with
  | nil => intro c _; rfl
  | cons b rest ih =>
    intro c hl
    have hb : b < 256 := hl b (List.mem_cons_self b rest)
    simp only [List.flatMap_cons, List.foldl_append, List.foldl_cons]
    rw [foldl_byteBits_eq_crc8Byte c b hb]
    exact ih (crc8Byte c b) (fun x hx => hl x (List.mem_cons_of_mem b hx))

/-! ## Word-codec lemmas -/

/-- `chunks3` of the empty buffer. -/
theorem chunks3_nil : chunks3 [] = [] :=
  rfl

/-- `chunks3` peels three leading bytes at a time. -/
theorem chunks3_cons3 (a b c : Nat) (l : List Nat) :
    chunks3 (a :: b :: c :: l) = [a, b, c] :: chunks3 l :=
  rfl

/-- On a buffer whose length is a multiple of three, every chunk has length
three and the panicking `any` loop reduces to a plain `List.any`. -/
theorem anyBadChunk_eq (l : List Nat) (h : l.length % 3 = 0) :
    anyBadChunk (chunks3 l) = some ((chunks3 l).any badChunk) := by
  match l with
  | [] => simp [chunks3_nil, anyBadChunk]
  | [a] => simp at h
  | [a, b] => simp at h
  | a :: b :: c :: rest =>
    have hr : rest.length % 3 = 0 := by
      simp [List.length_cons] at h
      omega
    have ih := anyBadChunk_eq rest hr
    rw [chunks3_cons3]
    by_cases hb : badChunk [a, b, c]
    · simp [anyBadChunk, chunkCrcBad, hb]
    · simp [anyBadChunk, chunkCrcBad, hb, ih]
termination_by l.length

/-- Every frame `encodeWord` emits passes `badChunk`. -/
theorem badChunk_encodeWord (w : Nat) : badChunk (encodeWord w) = false := by
  simp [badChunk, crc8_matches, encodeWord]

/-- Length of an encoded word sequence. -/
theorem encodeData_length (ws : List Nat) : (encodeData ws).length = 3 * ws.length := by
  induction ws with
  | nil => rfl
  | cons w rest ih =>
    simp only [encodeData, List.flatMap_cons, List.length_append, List.length_cons] at *
    simp [encodeWord] at *
    omega

/-- The chunks of an encoded word sequence are exactly the word frames. -/
theorem chunks3_encodeData (ws : List Nat) :
    chunks3 (encodeData ws) = ws.map encodeWord := by
  induction ws with
  | nil => simp [encodeData, chunks3_nil]
  | cons w rest ih =>
    have : encodeData (w :: rest) =
        (w / 256 % 256) :: (w % 256) ::
          compute_crc8 [w / 256 % 256, w % 256] :: encodeData rest := by
      simp [encodeData, encodeWord]
    rw [this, chunks3_cons3, ih]
    rfl

/-! ## Claim theorems: checksum unit and word codec -/

set_option maxRecDepth 10000 in
/-- C3: the checksum function is CRC-8 with polynomial `0x31`, initial value
`0xFF`, no input/output reflection and zero XOR-out (CRC-8/NRSC-5) — it
coincides, on every byte sequence, with bit-serial polynomial division as the
catalogue defines that CRC, it is a pure function of the byte list, and the
checksum of `{0xBE, 0xEF}` is `0x92` (the catalogue check value over
"123456789" is `0xF7` as well). -/
theorem crc8_is_nrsc5 (data : List Nat) (h : ∀ b ∈ data, b < 256) :
    compute_crc8 data = crc8PolyDiv data ∧
    compute_crc8 [0xBE, 0xEF] = 0x92 ∧
    compute_crc8 [0x31, 0x32, 0x33, 0x34, 0x35, 0x36, 0x37, 0x38, 0x39] = 0xF7 := by
  refine ⟨?_, by decide, by decide⟩
  unfold compute_crc8 crc8PolyDiv
  exact (crc8_fold_bytes data 0xFF h).symm

/-- Witness for C3 at the spec's own sample input. -/
theorem crc8_is_nrsc5_witness :
    compute_crc8 [0xBE, 0xEF] = crc8PolyDiv [0xBE, 0xEF] :=
  (crc8_is_nrsc5 [0xBE, 0xEF] (by decide)).1

/-- C4: for every received buffer and (multiple-of-three, as every reply of
the catalog is) expected reply size, `check_deserialization` rejects with the
wrong-size error exactly when the length differs from the expected size,
rejects with the checksum-failure error when the length is right but some
3-byte group's checksum byte mismatches the CRC-8 of its two data bytes,
succeeds when the length is right and every group matches, and never panics
(`isSome` in the panic-explicit model); it returns no data, so nothing is
truncated or repaired. -/
theorem check_deserialization_spec (data : List Nat) (n : Nat) (h3 : n % 3 = 0) :
    (data.length ≠ n →
      check_deserialization data n = some (.error .ReceivedBufferWrongSize))
    ∧ (data.length = n →
        ((∀ ch ∈ chunks3 data, compute_crc8 (ch.take 2) = ch.getD 2 0) →
          check_deserialization data n = some (.ok ()))
        ∧ ((∃ ch ∈ chunks3 data, compute_crc8 (ch.take 2) ≠ ch.getD 2 0) →
          check_deserialization data n = some (.error .CrcFailed)))
    ∧ (check_deserialization data n).isSome := by
  have key : data.length = n → check_deserialization data n =
      some (if (chunks3 data).any badChunk then Except.error DataError.CrcFailed
            else Except.ok ()) := by
    intro hlen
    have hmod : data.length % 3 = 0 := by rw [hlen]; exact h3
    unfold check_deserialization
    rw [if_neg (not_not_intro hlen), anyBadChunk_eq data hmod]
    cases (chunks3 data).any badChunk <;> rfl
  refine ⟨fun hne => by simp [check_deserialization, hne], fun hlen => ⟨?_, ?_⟩, ?_⟩
  · intro hall
    have hany : (chunks3 data).any badChunk = false := by
      rw [List.any_eq_false]
      intro ch hch
      simp [badChunk, crc8_matches, hall ch hch]
    rw [key hlen, hany]
    rfl
  · rintro ⟨ch, hch, hbad⟩
    have hany : (chunks3 data).any badChunk = true := by
      rw [List.any_eq_true]
      simp only [List.getD, List.get?_eq_getElem?] at hbad
      exact ⟨ch, hch, by simp [badChunk, crc8_matches, List.getD, hbad]⟩
    rw [key hlen, hany]
    rfl
  · by_cases hlen : data.length = n
    · rw [key hlen]
      rfl
    · simp [check_deserialization, hlen]

/-- Witness for C4: a well-framed single-word reply is accepted, a
wrong-sized buffer is rejected. -/
theorem check_deserialization_spec_witness :
    check_deserialization [0xBE, 0xEF, 0x92] 3 = some (Except.ok ()) ∧
    check_deserialization [0xBE, 0xEF] 3 = some (Except.error .ReceivedBufferWrongSize) :=
  ⟨((check_deserialization_spec [0xBE, 0xEF, 0x92] 3 (by decide)).2.1 rfl).1 (by decide),
   (check_deserialization_spec [0xBE, 0xEF] 3 (by decide)).1 (by decide)⟩

/-- Every word frame passes the chunk check without panicking. -/
theorem chunkCrcBad_encodeWord (w : Nat) : chunkCrcBad (encodeWord w) = some false := by
  unfold chunkCrcBad
  rw [if_pos (by simp [encodeWord]), badChunk_encodeWord]

/-- Helper for C5: an encoded word sequence passes the checksum check. -/
theorem anyBadChunk_encodeData (ws : List Nat) :
    anyBadChunk (chunks3 (encodeData ws)) = some false := by
  rw [chunks3_encodeData]
  induction ws with
  | nil => rfl
  | cons w rest ih =>
    show anyBadChunk (encodeWord w :: rest.map encodeWord) = some false
    unfold anyBadChunk
    rw [chunkCrcBad_encodeWord]
    simpa using ih

/-- C5: framing each 16-bit word as two big-endian bytes plus its CRC-8 byte
(after the 2-byte opcode, which `buildFrame` prepends uncovered by any
checksum) and then running the receive-side validation and word extraction
yields exactly the original words. -/
theorem codec_roundtrip (c : Command) (words : List Nat)
    (h : ∀ w ∈ words, w < 65536) :
    buildFrame c (some words) = c.toBeBytes ++ encodeData words
    ∧ check_deserialization (encodeData words) (3 * words.length) = some (.ok ())
    ∧ extractWords (encodeData words) = words := by
  refine ⟨rfl, ?_, ?_⟩
  · unfold check_deserialization
    rw [if_neg (not_not_intro (encodeData_length words)), anyBadChunk_encodeData words]
  · unfold extractWords
    rw [chunks3_encodeData, List.map_map]
    have hpt : ∀ w ∈ words, (fun ch => 256 * ch.getD 0 0 + ch.getD 1 0) (encodeWord w) = w := by
      intro w hw
      have h16 : w < 65536 := h w hw
      have hdiv : w / 256 < 256 := by omega
      simp only [encodeWord, List.getD]
      simp [Nat.mod_eq_of_lt hdiv]
      omega
    have hmap : words.map ((fun ch => 256 * ch.getD 0 0 + ch.getD 1 0) ∘ encodeWord) =
        words.map id := List.map_congr_left fun w hw => hpt w hw
    rw [hmap, List.map_id]

/-- Witness for C5 at the forced-recalibration request words. -/
theorem codec_roundtrip_witness :
    extractWords (encodeData [0x03E8]) = [0x03E8] :=
  (codec_roundtrip Command.ForcedRecalibration [0x03E8] (by decide)).2.2

/-! ## Claim theorems: session state machine -/

/-- C1 counterexample: `is_data_ready` called in `Idle` is a gated command in
the wrong state; the caller should transition to `Measuring`, but the
wrong-state error payload is the current state `Idle`, not `Measuring`. -/
theorem gated_wrong_state_counterexample :
    (is_data_ready SensorState.Idle (⟨Except.ok (), Except.ok []⟩ : Bus Unit)).out
      = some (.error (.WrongState "Idle"))
    ∧ (is_data_ready SensorState.Idle (⟨Except.ok (), Except.ok []⟩ : Bus Unit)).out
      ≠ some (.error (.WrongState "Measuring")) :=
  ⟨rfl, by decide⟩

/-- C1 (amended): every gated driver operation called in the wrong state
fails fast with a wrong-state error naming the current (wrong) state, leaves
the state unchanged, and performs zero transport writes. -/
theorem gated_wrong_state {ε : Type} (bus : Bus ε) (toff : TemperatureAcceleration)
    (t : Tuning) (vs : List Nat) (tgt : Nat) (a : AscState) (v : Nat) :
    stop_measurement SensorState.Idle bus =
      ⟨some (.error (.WrongState "Idle")), SensorState.Idle, []⟩
    ∧ is_data_ready SensorState.Idle bus =
      ⟨some (.error (.WrongState "Idle")), SensorState.Idle, []⟩
    ∧ read_measured_values SensorState.Idle bus =
      ⟨some (.error (.WrongState "Idle")), SensorState.Idle, []⟩
    ∧ read_measured_raw_values SensorState.Idle bus =
      ⟨some (.error (.WrongState "Idle")), SensorState.Idle, []⟩
    ∧ read_number_concentrations SensorState.Idle bus =
      ⟨some (.error (.WrongState "Idle")), SensorState.Idle, []⟩
    ∧ start_measurement SensorState.Measuring bus =
      ⟨some (.error (.WrongState "Measuring")), SensorState.Measuring, []⟩
    ∧ set_temperature_acceleration SensorState.Measuring bus toff =
      ⟨some (.error (.WrongState "Measuring")), SensorState.Measuring, []⟩
    ∧ reset_device SensorState.Measuring bus =
      ⟨some (.error (.WrongState "Measuring")), SensorState.Measuring, []⟩
    ∧ start_fan_cleaning SensorState.Measuring bus =
      ⟨some (.error (.WrongState "Measuring")), SensorState.Measuring, []⟩
    ∧ activate_sht_heater SensorState.Measuring bus =
      ⟨some (.error (.WrongState "Measuring")), SensorState.Measuring, []⟩
    ∧ get_voc_tuning_parameters SensorState.Measuring bus =
      ⟨some (.error (.WrongState "Measuring")), SensorState.Measuring, []⟩
    ∧ set_voc_tuning_parameters SensorState.Measuring bus t =
      ⟨some (.error (.WrongState "Measuring")), SensorState.Measuring, []⟩
    ∧ set_voc_algorithm_state SensorState.Measuring bus vs =
      ⟨some (.error (.WrongState "Measuring")), SensorState.Measuring, []⟩
    ∧ get_nox_tuning_parameters SensorState.Measuring bus =
      ⟨some (.error (.WrongState "Measuring")), SensorState.Measuring, []⟩
    ∧ set_nox_tuning_parameters SensorState.Measuring bus t =
      ⟨some (.error (.WrongState "Measuring")), SensorState.Measuring, []⟩
    ∧ perform_forced_co2_recalibration SensorState.Measuring bus tgt =
      ⟨some (.error (.WrongState "Measuring")), SensorState.Measuring, []⟩
    ∧ get_co2_asc_state SensorState.Measuring bus =
      ⟨some (.error (.WrongState "Measuring")), SensorState.Measuring, []⟩
    ∧ set_co2_asc_state SensorState.Measuring bus a =
      ⟨some (.error (.WrongState "Measuring")), SensorState.Measuring, []⟩
    ∧ get_sensor_altitude SensorState.Measuring bus =
      ⟨some (.error (.WrongState "Measuring")), SensorState.Measuring, []⟩
    ∧ set_sensor_altitude SensorState.Measuring bus v =
      ⟨some (.error (.WrongState "Measuring")), SensorState.Measuring, []⟩ :=
  ⟨rfl, rfl, rfl, rfl, rfl, rfl, rfl, rfl, rfl, rfl,
   rfl, rfl, rfl, rfl, rfl, rfl, rfl, rfl, rfl, rfl⟩

/-- C2: the session starts in `Idle`; `Idle → Measuring` happens exactly on a
`start_measurement` whose transport write succeeds, `Measuring → Idle`
exactly on a `stop_measurement` whose transport write succeeds; a transport
error leaves the state unchanged; and no other operation ever changes the
session state (`shutdown` acts only through `stop_measurement` and `kill`
leaves the state alone). -/
theorem session_state_invariant {ε : Type} :
    newState = SensorState.Idle
    ∧ (∀ r : Except ε (List Nat), start_measurement SensorState.Idle ⟨.ok (), r⟩ =
        ⟨some (.ok ()), SensorState.Measuring, [buildFrame .StartContinuousMeasurement none]⟩)
    ∧ (∀ e : ε, ∀ r, start_measurement SensorState.Idle ⟨.error e, r⟩ =
        ⟨some (.error (.I2cError e)), SensorState.Idle,
          [buildFrame .StartContinuousMeasurement none]⟩)
    ∧ (∀ bus : Bus ε, (start_measurement SensorState.Measuring bus).state =
        SensorState.Measuring)
    ∧ (∀ r : Except ε (List Nat), stop_measurement SensorState.Measuring ⟨.ok (), r⟩ =
        ⟨some (.ok ()), SensorState.Idle, [buildFrame .StopMeasurement none]⟩)
    ∧ (∀ e : ε, ∀ r, stop_measurement SensorState.Measuring ⟨.error e, r⟩ =
        ⟨some (.error (.I2cError e)), SensorState.Measuring,
          [buildFrame .StopMeasurement none]⟩)
    ∧ (∀ bus : Bus ε, (stop_measurement SensorState.Idle bus).state = SensorState.Idle)
    ∧ (∀ (st : SensorState) (bus : Bus ε), (is_data_ready st bus).state = st)
    ∧ (∀ (st : SensorState) (bus : Bus ε), (read_measured_values st bus).state = st)
    ∧ (∀ (st : SensorState) (bus : Bus ε), (read_measured_raw_values st bus).state = st)
    ∧ (∀ (st : SensorState) (bus : Bus ε), (read_number_concentrations st bus).state = st)
    ∧ (∀ (st : SensorState) (bus : Bus ε), ∀ p, (set_temperature_offset st bus p).state = st)
    ∧ (∀ (st : SensorState) (bus : Bus ε), ∀ p, (set_temperature_acceleration st bus p).state = st)
    ∧ (∀ (st : SensorState) (bus : Bus ε), (get_product_name st bus).state = st)
    ∧ (∀ (st : SensorState) (bus : Bus ε), (get_serial_number st bus).state = st)
    ∧ (∀ (st : SensorState) (bus : Bus ε), (read_device_status st bus).state = st)
    ∧ (∀ (st : SensorState) (bus : Bus ε), (read_and_clear_device_status st bus).state = st)
    ∧ (∀ (st : SensorState) (bus : Bus ε), (reset_device st bus).state = st)
    ∧ (∀ (st : SensorState) (bus : Bus ε), (start_fan_cleaning st bus).state = st)
    ∧ (∀ (st : SensorState) (bus : Bus ε), (activate_sht_heater st bus).state = st)
    ∧ (∀ (st : SensorState) (bus : Bus ε), (get_voc_tuning_parameters st bus).state = st)
    ∧ (∀ (st : SensorState) (bus : Bus ε), ∀ p, (set_voc_tuning_parameters st bus p).state = st)
    ∧ (∀ (st : SensorState) (bus : Bus ε), (get_voc_algorithm_state st bus).state = st)
    ∧ (∀ (st : SensorState) (bus : Bus ε), ∀ p, (set_voc_algorithm_state st bus p).state = st)
    ∧ (∀ (st : SensorState) (bus : Bus ε), (get_nox_tuning_parameters st bus).state = st)
    ∧ (∀ (st : SensorState) (bus : Bus ε), ∀ p, (set_nox_tuning_parameters st bus p).state = st)
    ∧ (∀ (st : SensorState) (bus : Bus ε), ∀ p, (perform_forced_co2_recalibration st bus p).state = st)
    ∧ (∀ (st : SensorState) (bus : Bus ε), (get_co2_asc_state st bus).state = st)
    ∧ (∀ (st : SensorState) (bus : Bus ε), ∀ p, (set_co2_asc_state st bus p).state = st)
    ∧ (∀ (st : SensorState) (bus : Bus ε), (get_ambient_pressure st bus).state = st)
    ∧ (∀ (st : SensorState) (bus : Bus ε), ∀ p, (set_ambient_pressure st bus p).state = st)
    ∧ (∀ (st : SensorState) (bus : Bus ε), (get_sensor_altitude st bus).state = st)
    ∧ (∀ (st : SensorState) (bus : Bus ε), ∀ p, (set_sensor_altitude st bus p).state = st)
    ∧ (∀ bus : Bus ε, (shutdown SensorState.Idle bus).state = SensorState.Idle)
    ∧ (∀ bus : Bus ε, (shutdown SensorState.Measuring bus).state =
        (stop_measurement SensorState.Measuring bus).state)
    ∧ (∀ (st : SensorState) (bus : Bus ε), (kill st bus).state = st) := by
  refine ⟨rfl, fun r => rfl, fun e r => rfl, fun bus => rfl, fun r => rfl, fun e r => rfl,
    fun bus => rfl, ?_, ?_, ?_, ?_, ?_, ?_, ?_, ?_, ?_, ?_, ?_, ?_, ?_, ?_, ?_, ?_, ?_,
    ?_, ?_, ?_, ?_, ?_, ?_, ?_, ?_, ?_,
    fun bus => rfl,
    fun bus => by rcases bus with ⟨(_ | _), _⟩ <;> rfl,
    fun st bus => rfl⟩ <;>
  · intro st bus
    try intro p
    cases st <;> rcases bus with ⟨(_ | _), (_ | _)⟩ <;>
      first
        | rfl
        | (dsimp only [perform_forced_co2_recalibration, opWriteRead]
           repeat' split
           all_goals rfl)

/-! ## Claim theorems: value decoding and validation -/

/-- C6: on every checksum-verified 27-byte measurement reply, the four PM
mass concentration fields are the unsigned big-endian 16-bit words divided by
10, relative humidity is the signed word divided by 100, temperature the
signed word divided by 200, VOC and NOx index the signed words divided by 10,
and CO2 is the raw unsigned word with no scaling; the warm-up value `0xFFFF`
is passed through unchanged and is not an error. -/
theorem measurement_scaling (data : List Nat)
    (hok : check_deserialization data 27 = some (Except.ok ())) :
    measurementTryFrom data = some (.ok
      { pm1_0 := (u16At data 0 : ℚ) / 10
        pm2_5 := (u16At data 3 : ℚ) / 10
        pm4_0 := (u16At data 6 : ℚ) / 10
        pm10_0 := (u16At data 9 : ℚ) / 10
        relative_humidity := (toI16 (u16At data 12) : ℚ) / 100
        temperature := (toI16 (u16At data 15) : ℚ) / 200
        voc_index := (toI16 (u16At data 18) : ℚ) / 10
        nox_index := (toI16 (u16At data 21) : ℚ) / 10
        co2 := u16At data 24 })
    ∧ (u16At data 24 = 0xFFFF →
        ∃ m, measurementTryFrom data = some (Except.ok m) ∧ m.co2 = 0xFFFF) := by
  have hbase : measurementTryFrom data = some (.ok
      { pm1_0 := (u16At data 0 : ℚ) / 10
        pm2_5 := (u16At data 3 : ℚ) / 10
        pm4_0 := (u16At data 6 : ℚ) / 10
        pm10_0 := (u16At data 9 : ℚ) / 10
        relative_humidity := (toI16 (u16At data 12) : ℚ) / 100
        temperature := (toI16 (u16At data 15) : ℚ) / 200
        voc_index := (toI16 (u16At data 18) : ℚ) / 10
        nox_index := (toI16 (u16At data 21) : ℚ) / 10
        co2 := u16At data 24 }) := by
    unfold measurementTryFrom afterCheck
    rw [hok]
  exact ⟨hbase, fun hw => ⟨_, hbase, hw⟩⟩

/-- Sample measurement reply from the driver's own test suite
(`read_measured_values_works`). -/
def measurementSample : List Nat :=
  [0x00, 0x0A, 0x5A, 0x00, 0x0A, 0x5A, 0x00, 0x0A, 0x5A, 0x00, 0x0A, 0x5A,
   0x00, 0x64, 0xFE, 0x00, 0xC8, 0x7F, 0x00, 0x0A, 0x5A, 0x00, 0x0A, 0x5A,
   0x00, 0x01, 0xB0]

/-- Witness for C6: the repository's own sample reply decodes with the
documented scales. -/
theorem measurement_scaling_witness :
    measurementTryFrom measurementSample = some (.ok
      { pm1_0 := (u16At measurementSample 0 : ℚ) / 10
        pm2_5 := (u16At measurementSample 3 : ℚ) / 10
        pm4_0 := (u16At measurementSample 6 : ℚ) / 10
        pm10_0 := (u16At measurementSample 9 : ℚ) / 10
        relative_humidity := (toI16 (u16At measurementSample 12) : ℚ) / 100
        temperature := (toI16 (u16At measurementSample 15) : ℚ) / 200
        voc_index := (toI16 (u16At measurementSample 18) : ℚ) / 10
        nox_index := (toI16 (u16At measurementSample 21) : ℚ) / 10
        co2 := u16At measurementSample 24 }) :=
  (measurement_scaling measurementSample (by decide)).1

/-- C7: evaluation of the forced CO2 recalibration composition.  The claim's
universal clause fails at the CRC-valid reply word `0x0000`: the driver's
`u16` subtraction `value - 0x8000` underflows there (a panic under Rust's
checked arithmetic, modelled as `none`) instead of returning a correction.
The `0xFFFF` reply maps to the dedicated `FailedCo2Recalibration` error,
distinct from every generic decode error, and the reply `[0x83, 0xE8, 0xF7]`
decodes to correction 1000. -/
theorem forced_recalibration_eval :
    (perform_forced_co2_recalibration SensorState.Idle
        (⟨Except.ok (), Except.ok [0x00, 0x00, 0x81]⟩ : Bus Unit) 1000).out = none
    ∧ (perform_forced_co2_recalibration SensorState.Idle
        (⟨Except.ok (), Except.ok [0x83, 0xE8, 0xF7]⟩ : Bus Unit) 1000).out
        = some (.ok 1000)
    ∧ (perform_forced_co2_recalibration SensorState.Idle
        (⟨Except.ok (), Except.ok [0xFF, 0xFF, 0xAC]⟩ : Bus Unit) 1000).out
        = some (.error .FailedCo2Recalibration)
    ∧ (∀ d : DataError,
        (Sen66Error.FailedCo2Recalibration : Sen66Error Unit) ≠ .DataError d) :=
  ⟨rfl, rfl, rfl, fun _ h => Sen66Error.noConfusion h⟩

/-- C10: `Co2Correction::try_from` is not total: on the CRC-valid 3-byte
reply `[0x00, 0x00, 0x81]` (data word `0x0000`, not `0xFFFF`) the `u16`
subtraction `value - 0x8000` underflows, so the parse panics (is `none` in
the panic-explicit model) rather than returning a correction or a
`DataError`. -/
theorem co2_correction_underflow :
    check_deserialization [0x00, 0x00, 0x81] 3 = some (Except.ok ())
    ∧ u16At [0x00, 0x00, 0x81] 0 ≠ 0xFFFF
    ∧ co2CorrectionTryFrom [0x00, 0x00, 0x81] = none :=
  ⟨rfl, by decide, rfl⟩

/-- C9 counterexample: the CRC-valid data-ready reply `[0x01, 0x00, 0x75]`
carries the raw word `0x0100`, which is neither `0x00` nor `0x01`, yet the
decoder accepts it as `NotReady` (only the low byte is inspected) instead of
returning the unexpected-value error the claim requires. -/
theorem bool_reply_word_counterexample :
    dataStatusTryFrom [0x01, 0x00, 0x75] = some (.ok DataStatus.NotReady)
    ∧ u16At [0x01, 0x00, 0x75] 0 = 0x0100
    ∧ ∀ p e a, dataStatusTryFrom [0x01, 0x00, 0x75] ≠
        some (.error (.UnexpectedValueReceived p e a)) :=
  ⟨rfl, rfl, fun _ _ _ h =>
    Except.noConfusion (Option.some.inj
      ((show dataStatusTryFrom [0x01, 0x00, 0x75] = some (.ok DataStatus.NotReady)
        from rfl).symm.trans h))⟩

/-- C9 (amended): decoding of the 2-byte boolean-like replies (data-ready
status and ASC enable state) inspects the low data byte: on every CRC-valid
3-byte reply, low byte `0x01` decodes to Ready respectively Enabled, low
byte `0x00` to Not Ready respectively Disabled — regardless of the high
byte — and every other low byte yields an unexpected-value error naming the
parameter and the expected set; the spec's three scenario vectors decode
accordingly. -/
theorem bool_reply_low_byte (a b crc : Nat) (hcrc : crc = compute_crc8 [a, b]) :
    (b = 0x00 → dataStatusTryFrom [a, b, crc] = some (.ok .NotReady)
              ∧ ascStateTryFrom [a, b, crc] = some (.ok .Disabled))
    ∧ (b = 0x01 → dataStatusTryFrom [a, b, crc] = some (.ok .Ready)
              ∧ ascStateTryFrom [a, b, crc] = some (.ok .Enabled))
    ∧ (b ≠ 0x00 → b ≠ 0x01 →
        dataStatusTryFrom [a, b, crc] =
          some (.error (.UnexpectedValueReceived "Data ready status" "0 or 1" b))
        ∧ ascStateTryFrom [a, b, crc] =
          some (.error (.UnexpectedValueReceived "ASC State" "0 or 1" b)))
    ∧ dataStatusTryFrom [0x00, 0x01, 0xB0] = some (.ok .Ready)
    ∧ dataStatusTryFrom [0x00, 0x00, 0x81] = some (.ok .NotReady)
    ∧ dataStatusTryFrom [0x00, 0x03, 0xD2] =
        some (.error (.UnexpectedValueReceived "Data ready status" "0 or 1" 3))
    ∧ ascStateTryFrom [0x00, 0x01, 0xB0] = some (.ok .Enabled)
    ∧ ascStateTryFrom [0x00, 0x00, 0x81] = some (.ok .Disabled)
    ∧ ascStateTryFrom [0x00, 0x03, 0xD2] =
        some (.error (.UnexpectedValueReceived "ASC State" "0 or 1" 3)) := by
  have hchk : check_deserialization [a, b, crc] 3 = some (Except.ok ()) := by
    unfold check_deserialization
    rw [if_neg (by simp)]
    have hany : anyBadChunk (chunks3 [a, b, crc]) = some false := by
      show anyBadChunk [[a, b, crc]] = some false
      unfold anyBadChunk chunkCrcBad
      rw [if_pos (by simp)]
      simp [badChunk, crc8_matches, hcrc, anyBadChunk]
    rw [hany]
  refine ⟨?_, ?_, ?_, rfl, rfl, rfl, rfl, rfl, rfl⟩
  · rintro rfl
    unfold dataStatusTryFrom ascStateTryFrom afterCheck
    rw [hchk]
    exact ⟨rfl, rfl⟩
  · rintro rfl
    unfold dataStatusTryFrom ascStateTryFrom afterCheck
    rw [hchk]
    exact ⟨rfl, rfl⟩
  · intro hb0 hb1
    unfold dataStatusTryFrom ascStateTryFrom afterCheck
    rw [hchk]
    rcases b with _ | _ | m
    · exact absurd rfl hb0
    · exact absurd rfl hb1
    · exact ⟨rfl, rfl⟩

/-- Witness for C9 (amended), at the spec's unexpected-value scenario vector. -/
theorem bool_reply_low_byte_witness :
    dataStatusTryFrom [0x00, 0x03, 0xD2] =
      some (.error (.UnexpectedValueReceived "Data ready status" "0 or 1" 3)) :=
  ((bool_reply_low_byte 0x00 0x03 0xD2 (by decide)).2.2.1 (by decide) (by decide)).1

/-- C8: every value-type constructor accepts exactly its documented bounds —
tuning fields (index offset 1–250, learning-time constants 1–1000 h, gating
duration 0–3000 min, standard deviation 10–5000, gain factor 1–1000),
temperature-offset slot 0–4, ambient pressure 700–1200 hPa and sensor
altitude 0–3000 m; out-of-bounds input fails with a value-out-of-range error
citing the violated bound (for each first-failing field), and a successful
construction carries exactly the validated values, so no invalid instance is
observable. -/
theorem value_range_validation (x1 x2 x3 x4 x5 x6 offset slope : Int)
    (tc slot ap alt : Nat) :
    (tuningNew x1 x2 x3 x4 x5 x6 = .ok ⟨x1, x2, x3, x4, x5, x6⟩ ↔
      (1 ≤ x1 ∧ x1 ≤ 250) ∧ (1 ≤ x2 ∧ x2 ≤ 1000) ∧ (1 ≤ x3 ∧ x3 ≤ 1000) ∧
      (0 ≤ x4 ∧ x4 ≤ 3000) ∧ (10 ≤ x5 ∧ x5 ≤ 5000) ∧ (1 ≤ x6 ∧ x6 ≤ 1000))
    ∧ (¬(1 ≤ x1 ∧ x1 ≤ 250) → tuningNew x1 x2 x3 x4 x5 x6 =
        .error (.ValueOutOfRange "VOC Index Offset" 1 250 ""))
    ∧ ((1 ≤ x1 ∧ x1 ≤ 250) → ¬(1 ≤ x2 ∧ x2 ≤ 1000) → tuningNew x1 x2 x3 x4 x5 x6 =
        .error (.ValueOutOfRange "VOC Learning Time Offset" 1 1000 "h"))
    ∧ ((1 ≤ x1 ∧ x1 ≤ 250) → (1 ≤ x2 ∧ x2 ≤ 1000) → ¬(1 ≤ x3 ∧ x3 ≤ 1000) →
        tuningNew x1 x2 x3 x4 x5 x6 =
        .error (.ValueOutOfRange "VOC Learning Time Gain" 1 1000 "h"))
    ∧ ((1 ≤ x1 ∧ x1 ≤ 250) → (1 ≤ x2 ∧ x2 ≤ 1000) → (1 ≤ x3 ∧ x3 ≤ 1000) →
        ¬(0 ≤ x4 ∧ x4 ≤ 3000) → tuningNew x1 x2 x3 x4 x5 x6 =
        .error (.ValueOutOfRange "VOC Gating Max Duration" 0 3000 "min"))
    ∧ ((1 ≤ x1 ∧ x1 ≤ 250) → (1 ≤ x2 ∧ x2 ≤ 1000) → (1 ≤ x3 ∧ x3 ≤ 1000) →
        (0 ≤ x4 ∧ x4 ≤ 3000) → ¬(10 ≤ x5 ∧ x5 ≤ 5000) → tuningNew x1 x2 x3 x4 x5 x6 =
        .error (.ValueOutOfRange "VOC Initial Standard Deviation" 10 5000 ""))
    ∧ ((1 ≤ x1 ∧ x1 ≤ 250) → (1 ≤ x2 ∧ x2 ≤ 1000) → (1 ≤ x3 ∧ x3 ≤ 1000) →
        (0 ≤ x4 ∧ x4 ≤ 3000) → (10 ≤ x5 ∧ x5 ≤ 5000) → ¬(1 ≤ x6 ∧ x6 ≤ 1000) →
        tuningNew x1 x2 x3 x4 x5 x6 =
        .error (.ValueOutOfRange "VOC Gain Factor" 1 1000 ""))
    ∧ (4 < slot → -32768 ≤ offset * 200 → offset * 200 ≤ 32767 →
        -32768 ≤ slope * 10000 → slope * 10000 ≤ 32767 →
        temperatureOffsetNew offset slope tc slot =
        .error (.ValueOutOfRange "Temperature Slope" 0 4 ""))
    ∧ (slot ≤ 4 → -32768 ≤ offset * 200 → offset * 200 ≤ 32767 →
        -32768 ≤ slope * 10000 → slope * 10000 ≤ 32767 →
        temperatureOffsetNew offset slope tc slot =
        .ok ⟨offset * 200, slope * 10000, tc, slot⟩)
    ∧ (ambientPressureNew ap = .ok ap ↔ 700 ≤ ap ∧ ap ≤ 1200)
    ∧ (¬(700 ≤ ap ∧ ap ≤ 1200) → ambientPressureNew ap =
        .error (.ValueOutOfRange "Ambient Pressure" 700 1200 "hPa"))
    ∧ (sensorAltitudeNew alt = .ok alt ↔ alt ≤ 3000)
    ∧ (¬ alt ≤ 3000 → sensorAltitudeNew alt =
        .error (.ValueOutOfRange "Sensor Altitude" 0 3000 "m")) := by
  have hok : ∀ (v mn mx : Int) (p u : String), (mn ≤ v ∧ v ≤ mx) →
      check_range v mn mx p u = .ok v := by
    intro v mn mx p u h
    unfold check_range
    rw [if_pos h]
  have herr : ∀ (v mn mx : Int) (p u : String), ¬(mn ≤ v ∧ v ≤ mx) →
      check_range v mn mx p u = .error (.ValueOutOfRange p mn mx u) := by
    intro v mn mx p u h
    unfold check_range
    rw [if_neg h]
  have hsok : ∀ (v s : Int) (p u : String), -32768 ≤ v * s → v * s ≤ 32767 →
      check_scaling_i16 v s p u = .ok (v * s) := by
    intro v s p u h1 h2
    unfold check_scaling_i16 i16CheckedMul
    rw [if_pos ⟨h1, h2⟩]
  refine ⟨⟨?_, ?_⟩, ?_, ?_, ?_, ?_, ?_, ?_, ?_, ?_, ⟨?_, ?_⟩, ?_, ⟨?_, ?_⟩, ?_⟩
  · intro h
    by_cases c1 : (1:Int) ≤ x1 ∧ x1 ≤ 250
    case neg =>
      unfold tuningNew at h
      simp only [herr x1 1 250 "VOC Index Offset" "" c1] at h
      exact Except.noConfusion h
    case pos =>
    by_cases c2 : (1:Int) ≤ x2 ∧ x2 ≤ 1000
    case neg =>
      unfold tuningNew at h
      simp only [hok x1 1 250 "VOC Index Offset" "" c1,
        herr x2 1 1000 "VOC Learning Time Offset" "h" c2] at h
      exact Except.noConfusion h
    case pos =>
    by_cases c3 : (1:Int) ≤ x3 ∧ x3 ≤ 1000
    case neg =>
      unfold tuningNew at h
      simp only [hok x1 1 250 "VOC Index Offset" "" c1,
        hok x2 1 1000 "VOC Learning Time Offset" "h" c2,
        herr x3 1 1000 "VOC Learning Time Gain" "h" c3] at h
      exact Except.noConfusion h
    case pos =>
    by_cases c4 : (0:Int) ≤ x4 ∧ x4 ≤ 3000
    case neg =>
      unfold tuningNew at h
      simp only [hok x1 1 250 "VOC Index Offset" "" c1,
        hok x2 1 1000 "VOC Learning Time Offset" "h" c2,
        hok x3 1 1000 "VOC Learning Time Gain" "h" c3,
        herr x4 0 3000 "VOC Gating Max Duration" "min" c4] at h
      exact Except.noConfusion h
    case pos =>
    by_cases c5 : (10:Int) ≤ x5 ∧ x5 ≤ 5000
    case neg =>
      unfold tuningNew at h
      simp only [hok x1 1 250 "VOC Index Offset" "" c1,
        hok x2 1 1000 "VOC Learning Time Offset" "h" c2,
        hok x3 1 1000 "VOC Learning Time Gain" "h" c3,
        hok x4 0 3000 "VOC Gating Max Duration" "min" c4,
        herr x5 10 5000 "VOC Initial Standard Deviation" "" c5] at h
      exact Except.noConfusion h
    case pos =>
    by_cases c6 : (1:Int) ≤ x6 ∧ x6 ≤ 1000
    case neg =>
      unfold tuningNew at h
      simp only [hok x1 1 250 "VOC Index Offset" "" c1,
        hok x2 1 1000 "VOC Learning Time Offset" "h" c2,
        hok x3 1 1000 "VOC Learning Time Gain" "h" c3,
        hok x4 0 3000 "VOC Gating Max Duration" "min" c4,
        hok x5 10 5000 "VOC Initial Standard Deviation" "" c5,
        herr x6 1 1000 "VOC Gain Factor" "" c6] at h
      exact Except.noConfusion h
    case pos =>
    exact ⟨c1, c2, c3, c4, c5, c6⟩
  · rintro ⟨c1, c2, c3, c4, c5, c6⟩
    unfold tuningNew
    simp only [hok x1 1 250 "VOC Index Offset" "" c1,
      hok x2 1 1000 "VOC Learning Time Offset" "h" c2,
      hok x3 1 1000 "VOC Learning Time Gain" "h" c3,
      hok x4 0 3000 "VOC Gating Max Duration" "min" c4,
      hok x5 10 5000 "VOC Initial Standard Deviation" "" c5,
      hok x6 1 1000 "VOC Gain Factor" "" c6]
  · intro c1
    unfold tuningNew
    simp only [herr x1 1 250 "VOC Index Offset" "" c1]
  · intro c1 c2
    unfold tuningNew
    simp only [hok x1 1 250 "VOC Index Offset" "" c1,
      herr x2 1 1000 "VOC Learning Time Offset" "h" c2]
  · intro c1 c2 c3
    unfold tuningNew
    simp only [hok x1 1 250 "VOC Index Offset" "" c1,
      hok x2 1 1000 "VOC Learning Time Offset" "h" c2,
      herr x3 1 1000 "VOC Learning Time Gain" "h" c3]
  · intro c1 c2 c3 c4
    unfold tuningNew
    simp only [hok x1 1 250 "VOC Index Offset" "" c1,
      hok x2 1 1000 "VOC Learning Time Offset" "h" c2,
      hok x3 1 1000 "VOC Learning Time Gain" "h" c3,
      herr x4 0 3000 "VOC Gating Max Duration" "min" c4]
  · intro c1 c2 c3 c4 c5
    unfold tuningNew
    simp only [hok x1 1 250 "VOC Index Offset" "" c1,
      hok x2 1 1000 "VOC Learning Time Offset" "h" c2,
      hok x3 1 1000 "VOC Learning Time Gain" "h" c3,
      hok x4 0 3000 "VOC Gating Max Duration" "min" c4,
      herr x5 10 5000 "VOC Initial Standard Deviation" "" c5]
  · intro c1 c2 c3 c4 c5 c6
    unfold tuningNew
    simp only [hok x1 1 250 "VOC Index Offset" "" c1,
      hok x2 1 1000 "VOC Learning Time Offset" "h" c2,
      hok x3 1 1000 "VOC Learning Time Gain" "h" c3,
      hok x4 0 3000 "VOC Gating Max Duration" "min" c4,
      hok x5 10 5000 "VOC Initial Standard Deviation" "" c5,
      herr x6 1 1000 "VOC Gain Factor" "" c6]
  · intro h4 ho1 ho2 hs1 hs2
    unfold temperatureOffsetNew
    simp only [hsok offset 200 "Temperature Offset" "°C" ho1 ho2,
      hsok slope 10000 "Temperature Slope" "" hs1 hs2]
    rw [if_neg (by omega)]
  · intro h4 ho1 ho2 hs1 hs2
    unfold temperatureOffsetNew
    simp only [hsok offset 200 "Temperature Offset" "°C" ho1 ho2,
      hsok slope 10000 "Temperature Slope" "" hs1 hs2]
    rw [if_pos h4]
  · intro h
    by_cases c : (700:Int) ≤ (ap:Int) ∧ (ap:Int) ≤ 1200
    · obtain ⟨c1, c2⟩ := c
      exact ⟨by omega, by omega⟩
    · unfold ambientPressureNew at h
      simp only [herr (ap:Int) 700 1200 "Ambient Pressure" "hPa" c] at h
      exact Except.noConfusion h
  · rintro ⟨hb1, hb2⟩
    have c : (700:Int) ≤ (ap:Int) ∧ (ap:Int) ≤ 1200 := by
      constructor <;> omega
    unfold ambientPressureNew
    simp only [hok (ap:Int) 700 1200 "Ambient Pressure" "hPa" c]
  · intro hnb
    have c : ¬((700:Int) ≤ (ap:Int) ∧ (ap:Int) ≤ 1200) := by omega
    unfold ambientPressureNew
    simp only [herr (ap:Int) 700 1200 "Ambient Pressure" "hPa" c]
  · intro h
    by_cases c : (0:Int) ≤ (alt:Int) ∧ (alt:Int) ≤ 3000
    · obtain ⟨c1, c2⟩ := c
      omega
    · unfold sensorAltitudeNew at h
      simp only [herr (alt:Int) 0 3000 "Sensor Altitude" "m" c] at h
      exact Except.noConfusion h
  · intro hb
    have c : (0:Int) ≤ (alt:Int) ∧ (alt:Int) ≤ 3000 := by
      constructor <;> omega
    unfold sensorAltitudeNew
    simp only [hok (alt:Int) 0 3000 "Sensor Altitude" "m" c]
  · intro hnb
    have c : ¬((0:Int) ≤ (alt:Int) ∧ (alt:Int) ≤ 3000) := by omega
    unfold sensorAltitudeNew
    simp only [herr (alt:Int) 0 3000 "Sensor Altitude" "m" c]

/-- Witness for C8: representative out-of-bounds and in-bounds inputs. -/
theorem value_range_validation_witness :
    tuningNew 0 12 12 180 50 230 =
      .error (.ValueOutOfRange "VOC Index Offset" 1 250 "")
    ∧ tuningNew 100 12 12 180 50 230 = .ok ⟨100, 12, 12, 180, 50, 230⟩
    ∧ temperatureOffsetNew 0 0 0 5 =
      .error (.ValueOutOfRange "Temperature Slope" 0 4 "")
    ∧ ambientPressureNew 500 =
      .error (.ValueOutOfRange "Ambient Pressure" 700 1200 "hPa")
    ∧ sensorAltitudeNew 3001 =
      .error (.ValueOutOfRange "Sensor Altitude" 0 3000 "m") :=
  ⟨(value_range_validation 0 12 12 180 50 230 0 0 0 0 700 0).2.1 (by decide),
   (value_range_validation 100 12 12 180 50 230 0 0 0 0 700 0).1.mpr (by decide),
   (value_range_validation 100 12 12 180 50 230 0 0 0 5 700 0).2.2.2.2.2.2.2.1
     (by decide) (by decide) (by decide) (by decide) (by decide),
   (value_range_validation 100 12 12 180 50 230 0 0 0 0 500 0).2.2.2.2.2.2.2.2.2.2.1
     (by decide),
   (value_range_validation 100 12 12 180 50 230 0 0 0 0 700 3001).2.2.2.2.2.2.2.2.2.2.2.2
     (by decide)⟩

end Sen66
